import Mathlib

/-!
Verification of the WMS test harness (`src/WmsTestHarness.py`).

The Python source is shallowly embedded here:
* `datetime.timedelta` values become `Timedelta` (normalized days / seconds /
  microseconds, as CPython stores them); float arithmetic is modelled over `ℚ`.
* `get_map` (lines 193-209) becomes a pure function over an explicit fetch
  outcome; the `try/except urllib2.URLError` block is reflected by the three
  outcome cases (success, a caught `URLError`, any other exception).
* The pool (`apply_async` / `close` / `join`, lines 95-143) becomes a fold of
  completed tasks in an arbitrary completion order; `apply_async` swallows a
  task's uncaught exception, which is modelled by dropping the error case.
* The statistics loop and log assembly of `main` (lines 148-186) become
  `statsLoop` / `avg_seconds` / `reportRows`.
* The random extent generator of `main` (lines 104-129) becomes
  `tileDescriptor`, with `random.uniform(a, b)` modelled as `a + (b - a) * r`
  for a draw `r ∈ [0, 1]` (CPython's definition) and `random.randint`'s
  failure on an empty range modelled in `mainRun`.
-/

namespace WmsHarness

/-- A normalized CPython `datetime.timedelta`: CPython stores a duration as
days, seconds in `[0, 86400)` and microseconds in `[0, 1000000)`. -/
structure Timedelta where
  days : ℤ
  seconds : ℕ
  microseconds : ℕ
deriving DecidableEq, Repr

/-- The elapsed-seconds value the source records (line 207):
`float(elapsed_time.microseconds) / 1000000.0` — only the microseconds
component of the timedelta. -/
def elapsedSecondsRecorded (d : Timedelta) : ℚ :=
  (d.microseconds : ℚ) / 1000000

/-- The wall-clock duration in seconds represented by a timedelta (what the
spec calls the elapsed wall-clock time in seconds with sub-second precision,
i.e. CPython's `timedelta.total_seconds()`); stated from the spec's words for
comparison with `elapsedSecondsRecorded`. -/
def wallClockSeconds (d : Timedelta) : ℚ :=
  86400 * (d.days : ℚ) + (d.seconds : ℚ) + (d.microseconds : ℚ) / 1000000

/-- One row of the shared results list: `[elapsed_seconds, image_len, url]`
(line 209). -/
structure ResultRecord where
  seconds : ℚ
  bytes : ℕ
  url : String
deriving DecidableEq, Repr

/-- Outcome of the blocking retrieval `urllib2.urlopen(request).read()`
(line 200): a successful read of `n` bytes, an exception of type
`urllib2.URLError` (which includes `HTTPError` for non-success statuses), or
an exception of any other type (e.g. `socket.timeout` raised during `read`,
`httplib.BadStatusLine`, `ValueError` on a malformed URL). -/
inductive FetchOutcome where
  | success (n : ℕ)
  | urlError
  | otherError
deriving DecidableEq, Repr

/-- An exception escaping `get_map`: the `except` clause at line 202 names
only `urllib2.URLError`, so an exception of any other type propagates. -/
inductive PyExn where
  | uncaughtNonURLError
deriving DecidableEq, Repr

/-- Embedding of `get_map` (lines 193-209). `d` is the timedelta measured
between the two `datetime.datetime.now()` calls. On `success n`,
`image_len = n`; on a caught `URLError` the handler only prints, so
`image_len` keeps its initial value `0` and the append still runs; on any
other exception the function aborts before the append at line 209. -/
def get_map (url : String) (d : Timedelta) (outcome : FetchOutcome)
    (mp_list : List ResultRecord) : Except PyExn (List ResultRecord) :=
  match outcome with
  | .success n => .ok (mp_list ++ [⟨elapsedSecondsRecorded d, n, url⟩])
  | .urlError => .ok (mp_list ++ [⟨elapsedSecondsRecorded d, 0, url⟩])
  | .otherError => .error .uncaughtNonURLError

/-- One submitted task of the pool loop (line 140): the URL built for
iteration `i`, together with the duration its fetch will take and how the
fetch will end. -/
structure Task where
  url : String
  elapsed : Timedelta
  outcome : FetchOutcome
deriving DecidableEq, Repr

/-- What one completed task contributes to the shared `results_list`:
`apply_async` runs `get_map` in a worker; the pool's worker loop catches any
exception the task raises and stores it in the (never read) `AsyncResult`,
so an uncaught exception leaves the shared list untouched. -/
def runTask (acc : List ResultRecord) (t : Task) : List ResultRecord :=
  match get_map t.url t.elapsed t.outcome acc with
  | .ok l => l
  | .error _ => acc

/-- The pool-level run (`apply_async` for every task, then `close`/`join`,
lines 140-143): the shared `results_list` after all tasks have completed, the
argument being the tasks in their (arbitrary) completion order. -/
def runPool (completionOrder : List Task) : List ResultRecord :=
  completionOrder.foldl runTask []

/-- Whether a task contributes a record to the shared list: exactly the tasks
whose fetch does not raise an exception outside `urllib2.URLError`. -/
def keptTask (t : Task) : Bool :=
  decide (t.outcome ≠ FetchOutcome.otherError)

/-- A task whose fetch raises an exception that is not a `urllib2.URLError`. -/
def lostTask : Task :=
  ⟨"u", ⟨0, 0, 1000⟩, FetchOutcome.otherError⟩

/-- The statistics loop of `main` (lines 157-167): one pass over the shared
results list accumulating `success_count` (records with `image_size > 0`) and
`total_seconds` (sum of the seconds of those records). -/
def statsLoop (rs : List ResultRecord) : ℕ × ℚ :=
  rs.foldl
    (fun acc item => if 0 < item.bytes then (acc.1 + 1, acc.2 + item.seconds) else acc)
    ((0 : ℕ), (0 : ℚ))

/-- The `success_count` accumulated by the statistics loop. -/
def success_count (rs : List ResultRecord) : ℕ :=
  (statsLoop rs).1

/-- The `total_seconds` accumulated by the statistics loop. -/
def total_seconds (rs : List ResultRecord) : ℚ :=
  (statsLoop rs).2

/-- The average time of `main` (lines 169-172): `total_seconds /
float(success_count)` when `success_count > 0`, otherwise `0`. -/
def avg_seconds (rs : List ResultRecord) : ℚ :=
  if 0 < success_count rs then total_seconds rs / (success_count rs : ℚ) else 0

/-- The failed-requests figure of the report (line 178):
`requests - success_count`, computed from the configured request count. -/
def failure_count (requests : ℤ) (rs : List ResultRecord) : ℤ :=
  requests - (success_count rs : ℤ)

/-- One CSV cell: the rows mix strings, Python ints and floats. -/
inductive Field where
  | str (s : String)
  | int (n : ℤ)
  | rat (q : ℚ)
deriving DecidableEq, Repr

/-- The rows written to the log file (lines 148-186): the `log_entries`
header rows in their append order, followed by `writerows(results_list)` —
one `[elapsed_seconds, image_len, url]` row per result record.  `W`/`H` are
the values of `map_image_width`/`map_image_height` at report time (256 in
tile mode). -/
def reportRows (processes requests : ℤ) (W H : ℕ) (rs : List ResultRecord) :
    List (List Field) :=
  [[Field.str "WMS Stress Test Results"],
   [],
   [Field.str "Concurrent processes", Field.int processes],
   [Field.str "Map image size", Field.str (toString W ++ " x " ++ toString H),
    Field.str "pixels"],
   [],
   [Field.str "WMS requests", Field.int requests],
   [],
   [Field.str "Successful requests", Field.int (success_count rs : ℤ)],
   [Field.str "Average time", Field.rat (avg_seconds rs), Field.str "seconds"],
   [Field.str "Failed requests", Field.int (failure_count requests rs)],
   [],
   [Field.str "Time_seconds", Field.str "Image_bytes", Field.str "URL"]]
  ++ rs.map (fun item => [Field.rat item.seconds, Field.int (item.bytes : ℤ),
                          Field.str item.url])

/-- The static per-level scale table `tile_pixel_sizes` (lines 213-243),
metres per pixel per tile level, with the source's decimal values read
exactly. -/
def tile_pixel_sizes : List ℚ :=
  [156543.033906250000000000,
   78271.516953125000000000,
   39135.758476562500000000,
   19567.879238281200000000,
   9783.939619140620000000,
   4891.969809570310000000,
   2445.984904785160000000,
   1222.992452392580000000,
   611.496226196289000000,
   305.748113098145000000,
   152.874056549072000000,
   76.437028274536100000,
   38.218514137268100000,
   19.109257068634000000,
   9.554628534317020000,
   4.777314267158510000,
   2.388657133579250000,
   1.194328566789630000,
   0.597164283394814000,
   0.298582141697407000,
   0.149291070848703000,
   0.074645535424351700,
   0.037322767712175800,
   0.018661383856087900,
   0.009330691928043960,
   0.004665345964021980,
   0.002332672982010990,
   0.001166336491005500,
   0.000583168245502748,
   0.000291584122751374,
   0.000145792061375687]

/-- Configured `min_tile_level` (line 46). -/
def min_tile_level : ℕ := 11

/-- Configured `max_tile_level` (line 47). -/
def max_tile_level : ℕ := 18

/-- A bounding box `[minX, minY, maxX, maxY]` of the configuration table. -/
structure BBox where
  minX : ℚ
  minY : ℚ
  maxX : ℚ
  maxY : ℚ
deriving DecidableEq, Repr

/-- The configured `max_bounding_boxes` dictionary (lines 67-73), as the
key/value pairs in their literal order. -/
def max_bounding_boxes : List (ℕ × BBox) :=
  [(1, ⟨16796997, -4020748, 16835959, -3995282⟩),
   (2, ⟨16124628, -4559667, 16163590, -4534318⟩),
   (3, ⟨17021863, -3192356, 17048580, -3174789⟩),
   (4, ⟨15417749, -4162522, 15447805, -4143515⟩),
   (5, ⟨12884117, -3773816, 12921966, -3748880⟩),
   (6, ⟨16391795, -5296763, 16410719, -5284614⟩),
   (7, ⟨16587717, -4225203, 16609981, -4187007⟩)]

/-- The Sydney box, entry 1 of the configured table. -/
def sydneyBox : BBox :=
  ⟨16796997, -4020748, 16835959, -3995282⟩

/-- CPython's `random.uniform(a, b)`: `a + (b - a) * random()`, with the
underlying draw `r ∈ [0, 1]`; total for every `a`, `b`, including `b < a`. -/
def uniform (a b r : ℚ) : ℚ :=
  a + (b - a) * r

/-- The tile-grid alignment of lines 124-125:
`math.floor(x / w) * w`. -/
def snapDown (x w : ℚ) : ℚ :=
  (⌊x / w⌋ : ℚ) * w

/-- The extent computed for one request (lines 110-129). -/
structure RequestDescriptor where
  left : ℚ
  bottom : ℚ
  right : ℚ
  top : ℚ
  width : ℚ
  height : ℚ
deriving DecidableEq, Repr

/-- One tile-mode iteration of the request loop (lines 110-129):
`map_width = map_height = 256 * tile_pixel_sizes[level]`; `left`/`bottom`
drawn by `random.uniform` over `[minX, maxX - width]` / `[minY, maxY -
height]` with draws `r1`, `r2`; both snapped down to the grid; `right = left
+ width`, `top = bottom + height`.  No further clamping is applied. -/
def tileDescriptor (box : BBox) (level : ℕ) (r1 r2 : ℚ) : RequestDescriptor :=
  let w := 256 * tile_pixel_sizes.getD level 0
  let l0 := uniform box.minX (box.maxX - w) r1
  let b0 := uniform box.minY (box.maxY - w) r2
  let l := snapDown l0 w
  let b := snapDown b0 w
  ⟨l, b, l + w, b + w, w, w⟩

/-- The bounding-box selection of lines 106-107: `max_bounding_boxes.get(r)`
for a draw `r` of `random.randint(1, len(max_bounding_boxes))` — a Python
`dict.get`, i.e. lookup by key, `None` (here `none`) when the key is
absent. -/
def chooseBBox (table : List (ℕ × BBox)) (r : ℕ) : Option BBox :=
  List.lookup r table

/-- Whether the draw value `r` retrieves entry number `i` of the table: the
key stored at position `i` is `r` (with distinct keys, `dict.get r` returns
exactly that entry's box). -/
def drawSelectsEntry (table : List (ℕ × BBox)) (r i : ℕ) : Bool :=
  (table[i]?).map Prod.fst == some r

/-- A process-fatal error raised before or during task dispatch. -/
inductive PyError where
  | valueErrorPoolSize
  | valueErrorEmptyRandomRange
deriving DecidableEq, Repr

/-- Python's `range(a, b)`. -/
def pyRange (a b : ℤ) : List ℤ :=
  (List.range (b - a).toNat).map (fun i : ℕ => a + (i : ℤ))

/-- The dispatch loop of `main` (lines 104-140) reduced to its fatal
behaviour: each iteration first calls `random.randint(1, len(table))`, which
raises `ValueError` when the table is empty (`randint(1, 0)` is an empty
range), and otherwise dispatches the task with `apply_async`.  Returns how
many tasks were dispatched and the error that stopped the loop, if any. -/
def dispatchLoop (tableLen : ℕ) : List ℤ → ℕ → ℕ × Option PyError
  | [], n => (n, none)
  | _ :: rest, n =>
      if tableLen = 0 then (n, some PyError.valueErrorEmptyRandomRange)
      else dispatchLoop tableLen rest (n + 1)

/-- The run up to `pool.close()` (lines 95-140): `multiprocessing.Pool(p)`
raises `ValueError` when `p < 1`, before anything is dispatched; otherwise
the loop `for i in range(0, requests)` runs `dispatchLoop`. -/
def mainRun (processes requests : ℤ) (tableLen : ℕ) : ℕ × Option PyError :=
  if processes < 1 then (0, some PyError.valueErrorPoolSize)
  else dispatchLoop tableLen (pyRange 0 requests) 0

/-- C1: for every fetch, the appended elapsed-seconds field equals the
wall-clock duration from start to completion.  The code instead records only
the microseconds component of the timedelta: for a fetch lasting 2.5 s
(timedelta 0 days, 2 s, 500000 µs) it appends 1/2 where the true duration in
seconds is 5/2, contradicting the comment at line 192 ("returns the time
taken (seconds)"). -/
theorem elapsed_seconds_drops_whole_seconds :
    elapsedSecondsRecorded ⟨0, 2, 500000⟩ = 1 / 2 ∧
    wallClockSeconds ⟨0, 2, 500000⟩ = 5 / 2 ∧
    get_map "u" ⟨0, 2, 500000⟩ (FetchOutcome.success 4096) []
      = Except.ok [⟨1 / 2, 4096, "u"⟩] ∧
    elapsedSecondsRecorded ⟨0, 2, 500000⟩ ≠ wallClockSeconds ⟨0, 2, 500000⟩ := by
  refine ⟨by norm_num [elapsedSecondsRecorded], by norm_num [wallClockSeconds], ?_, ?_⟩
  · show Except.ok ([] ++ [(⟨elapsedSecondsRecorded ⟨0, 2, 500000⟩, 4096, "u"⟩ : ResultRecord)]) = _
    norm_num [elapsedSecondsRecorded]
  · norm_num [elapsedSecondsRecorded, wallClockSeconds]

/-- A completed task grows the shared list by one record exactly when its
fetch did not raise an uncaught exception. -/
theorem runTask_length (acc : List ResultRecord) (t : Task) :
    (runTask acc t).length = acc.length + (if keptTask t then 1 else 0) := by
  obtain ⟨u, d, o⟩ := t
  cases o <;> simp [runTask, get_map, keptTask]

/-- Folding completed tasks over the shared list adds one record per kept
task. -/
theorem runPool_length_aux (l : List Task) :
    ∀ acc : List ResultRecord,
      (l.foldl runTask acc).length = acc.length + l.countP keptTask := by
  induction l with
  | nil => intro acc; simp
  | cons hd tl ih =>
      intro acc
      rw [List.foldl_cons, ih, runTask_length, List.countP_cons]
      by_cases h : keptTask hd
      · simp [h]; omega
      · simp [h]

/-- C2 (counterexample): a run of one submitted task whose fetch raises an
exception other than `urllib2.URLError` completes with an empty results
list — the record of that task is lost, so the collection does not contain
exactly N = 1 records. -/
theorem runPool_loses_record :
    runPool [lostTask] = [] ∧ [lostTask].length = 1 :=
  ⟨rfl, rfl⟩

/-- C2 (amended): for every run of N submitted tasks, in every completion
order, provided each task's fetch either succeeds or fails with a
`urllib2.URLError`, the shared results list contains exactly N records after
the pool run returns — one per task, no loss, no duplication (and for tasks
raising other exceptions the record is lost, see the counterexample). -/
theorem runPool_count (submitted completed : List Task)
    (hperm : completed.Perm submitted)
    (hok : ∀ t ∈ submitted, t.outcome ≠ FetchOutcome.otherError) :
    (runPool completed).length = submitted.length := by
  have h1 : (runPool completed).length = completed.countP keptTask := by
    simpa using runPool_length_aux completed []
  rw [h1, hperm.countP_eq]
  refine List.countP_eq_length.mpr (fun t ht => ?_)
  simpa [keptTask] using hok t ht

theorem runPool_count_witness :
    List.Perm [(⟨"b", ⟨0, 0, 1000⟩, FetchOutcome.urlError⟩ : Task),
               ⟨"a", ⟨0, 0, 250000⟩, FetchOutcome.success 1024⟩]
              [(⟨"a", ⟨0, 0, 250000⟩, FetchOutcome.success 1024⟩ : Task),
               ⟨"b", ⟨0, 0, 1000⟩, FetchOutcome.urlError⟩] ∧
    (runPool [(⟨"b", ⟨0, 0, 1000⟩, FetchOutcome.urlError⟩ : Task),
              ⟨"a", ⟨0, 0, 250000⟩, FetchOutcome.success 1024⟩]).length
      = ([(⟨"a", ⟨0, 0, 250000⟩, FetchOutcome.success 1024⟩ : Task),
          ⟨"b", ⟨0, 0, 1000⟩, FetchOutcome.urlError⟩]).length :=
  ⟨by decide,
   runPool_count
     [⟨"a", ⟨0, 0, 250000⟩, FetchOutcome.success 1024⟩,
      ⟨"b", ⟨0, 0, 1000⟩, FetchOutcome.urlError⟩]
     [⟨"b", ⟨0, 0, 1000⟩, FetchOutcome.urlError⟩,
      ⟨"a", ⟨0, 0, 250000⟩, FetchOutcome.success 1024⟩]
     (by decide) (by decide)⟩

/-- C3 (counterexample): a fetch that fails with an exception that is not a
`urllib2.URLError` (e.g. `socket.timeout` during `read`, or
`httplib.BadStatusLine`) escapes `get_map` — the exception is visible to the
caller and no record with byte length 0 is appended, because the `except`
clause at line 202 names only `urllib2.URLError`. -/
theorem get_map_uncaught_escape :
    get_map "u" ⟨0, 0, 1000⟩ FetchOutcome.otherError []
        = Except.error PyExn.uncaughtNonURLError ∧
    ¬ ∃ l : List ResultRecord,
        get_map "u" ⟨0, 0, 1000⟩ FetchOutcome.otherError [] = Except.ok l := by
  refine ⟨rfl, ?_⟩
  rintro ⟨l, hl⟩
  simp [get_map] at hl

/-- C3 (amended): for every fetch that succeeds or fails with a
`urllib2.URLError` (which includes `HTTPError` for non-success statuses),
`get_map` appends exactly one ResultRecord and raises nothing to its caller;
on a `URLError` the record's byte-length field is 0.  An exception of any
other type escapes without appending (the pool swallows it, so the run is
still not aborted, but the record is lost). -/
theorem get_map_caught (url : String) (d : Timedelta) (o : FetchOutcome)
    (mp : List ResultRecord) (h : o ≠ FetchOutcome.otherError) :
    ∃ rec : ResultRecord,
      get_map url d o mp = Except.ok (mp ++ [rec]) ∧
      rec.url = url ∧ rec.seconds = elapsedSecondsRecorded d ∧
      (o = FetchOutcome.urlError → rec.bytes = 0) := by
  cases o with
  | success n =>
      exact ⟨⟨elapsedSecondsRecorded d, n, url⟩, rfl, rfl, rfl, by intro h2; cases h2⟩
  | urlError =>
      exact ⟨⟨elapsedSecondsRecorded d, 0, url⟩, rfl, rfl, rfl, fun _ => rfl⟩
  | otherError => exact absurd rfl h

theorem get_map_caught_witness :
    (FetchOutcome.urlError ≠ FetchOutcome.otherError) ∧
    ∃ rec : ResultRecord,
      get_map "u" ⟨0, 0, 1000⟩ FetchOutcome.urlError [] = Except.ok ([] ++ [rec]) ∧
      rec.url = "u" ∧ rec.seconds = elapsedSecondsRecorded ⟨0, 0, 1000⟩ ∧
      (FetchOutcome.urlError = FetchOutcome.urlError → rec.bytes = 0) :=
  ⟨by decide, get_map_caught "u" ⟨0, 0, 1000⟩ FetchOutcome.urlError [] (by decide)⟩

/-- The statistics loop, run from any accumulator, adds the count of
positive-byte records and the sum of their seconds. -/
theorem statsLoop_eq (rs : List ResultRecord) :
    ∀ c : ℕ, ∀ q : ℚ,
      rs.foldl
        (fun acc item =>
          if 0 < item.bytes then (acc.1 + 1, acc.2 + item.seconds) else acc)
        (c, q)
      = (c + rs.countP (fun item => decide (0 < item.bytes)),
         q + ((rs.filter (fun item => decide (0 < item.bytes))).map
                (fun item => item.seconds)).sum) := by
  induction rs with
  | nil => intro c q; simp
  | cons hd tl ih =>
      intro c q
      rw [List.foldl_cons]
      by_cases h : 0 < hd.bytes
      · rw [if_pos h, ih, List.countP_cons, List.filter_cons]
        simp [h]
        constructor
        · omega
        · ring
      · rw [if_neg h, ih, List.countP_cons, List.filter_cons]
        simp [h]

/-- C4 (counterexample): a collection holding a single successful record whose
recorded elapsed time is 0 (attainable: the code records only the microseconds
component, which is 0 for any whole-second duration) has `success_count = 1`
but `avg_seconds = 0`, so average 0 does not imply zero successes — the
claimed biconditional fails. -/
theorem avg_zero_with_success :
    success_count [⟨0, 100, "u"⟩] = 1 ∧ avg_seconds [⟨0, 100, "u"⟩] = 0 := by
  constructor
  · rfl
  · norm_num [avg_seconds, success_count, total_seconds, statsLoop]

/-- C4 (amended): for a collection of N records with the configured request
count equal to N, `success_count` is the number of records with byte length
> 0, `total_seconds` is the sum of the seconds of those records,
`failure_count = N - success_count` so `success_count + failure_count = N`
and `failure_count ≥ 0`, and `avg_seconds` is 0 when `success_count = 0` and
`total_seconds / success_count` otherwise (it can also be 0 with successes,
when every successful record has 0 recorded seconds). -/
theorem aggregate_stats (requests : ℤ) (rs : List ResultRecord)
    (hN : (rs.length : ℤ) = requests) :
    success_count rs = rs.countP (fun item => decide (0 < item.bytes)) ∧
    total_seconds rs
      = ((rs.filter (fun item => decide (0 < item.bytes))).map
          (fun item => item.seconds)).sum ∧
    (success_count rs : ℤ) + failure_count requests rs = requests ∧
    0 ≤ failure_count requests rs ∧
    (success_count rs = 0 → avg_seconds rs = 0) ∧
    (0 < success_count rs →
      avg_seconds rs = total_seconds rs / (success_count rs : ℚ)) := by
  have hs : success_count rs = rs.countP (fun item => decide (0 < item.bytes)) := by
    unfold success_count statsLoop
    rw [statsLoop_eq]
    simp
  have ht : total_seconds rs
      = ((rs.filter (fun item => decide (0 < item.bytes))).map
          (fun item => item.seconds)).sum := by
    unfold total_seconds statsLoop
    rw [statsLoop_eq]
    simp
  refine ⟨hs, ht, by unfold failure_count; ring, ?_, ?_, ?_⟩
  · have hle : rs.countP (fun item => decide (0 < item.bytes)) ≤ rs.length :=
      List.countP_le_length _
    unfold failure_count
    rw [hs]
    omega
  · intro h0
    simp [avg_seconds, h0]
  · intro hpos
    simp [avg_seconds, hpos]

theorem aggregate_stats_witness :
    ((([(⟨1 / 2, 4096, "u"⟩ : ResultRecord), ⟨1 / 4, 0, "v"⟩]).length : ℤ) = 2) ∧
    (success_count [(⟨1 / 2, 4096, "u"⟩ : ResultRecord), ⟨1 / 4, 0, "v"⟩]
        = ([(⟨1 / 2, 4096, "u"⟩ : ResultRecord), ⟨1 / 4, 0, "v"⟩]).countP
            (fun item => decide (0 < item.bytes)) ∧
      total_seconds [(⟨1 / 2, 4096, "u"⟩ : ResultRecord), ⟨1 / 4, 0, "v"⟩]
        = ((([(⟨1 / 2, 4096, "u"⟩ : ResultRecord), ⟨1 / 4, 0, "v"⟩]).filter
              (fun item => decide (0 < item.bytes))).map
            (fun item => item.seconds)).sum ∧
      (success_count [(⟨1 / 2, 4096, "u"⟩ : ResultRecord), ⟨1 / 4, 0, "v"⟩] : ℤ)
          + failure_count 2 [(⟨1 / 2, 4096, "u"⟩ : ResultRecord), ⟨1 / 4, 0, "v"⟩] = 2 ∧
      0 ≤ failure_count 2 [(⟨1 / 2, 4096, "u"⟩ : ResultRecord), ⟨1 / 4, 0, "v"⟩] ∧
      (success_count [(⟨1 / 2, 4096, "u"⟩ : ResultRecord), ⟨1 / 4, 0, "v"⟩] = 0 →
        avg_seconds [(⟨1 / 2, 4096, "u"⟩ : ResultRecord), ⟨1 / 4, 0, "v"⟩] = 0) ∧
      (0 < success_count [(⟨1 / 2, 4096, "u"⟩ : ResultRecord), ⟨1 / 4, 0, "v"⟩] →
        avg_seconds [(⟨1 / 2, 4096, "u"⟩ : ResultRecord), ⟨1 / 4, 0, "v"⟩]
          = total_seconds [(⟨1 / 2, 4096, "u"⟩ : ResultRecord), ⟨1 / 4, 0, "v"⟩]
            / (success_count [(⟨1 / 2, 4096, "u"⟩ : ResultRecord), ⟨1 / 4, 0, "v"⟩] : ℚ))) :=
  ⟨by decide, aggregate_stats 2 [⟨1 / 2, 4096, "u"⟩, ⟨1 / 4, 0, "v"⟩] (by decide)⟩

/-- C8: for every completed run, the report is exactly the title row, a blank,
the worker count, the image dimensions, a blank, the request count, a blank,
the success count, the average seconds, the failure count, a blank, and the
column-header row, in that order, followed by one data row per ResultRecord;
its total row count is 12 + N. -/
theorem report_rows_structure (p r : ℤ) (W H : ℕ) (rs : List ResultRecord) :
    (reportRows p r W H rs).length = 12 + rs.length ∧
    (reportRows p r W H rs).take 12
      = [[Field.str "WMS Stress Test Results"],
         [],
         [Field.str "Concurrent processes", Field.int p],
         [Field.str "Map image size", Field.str (toString W ++ " x " ++ toString H),
          Field.str "pixels"],
         [],
         [Field.str "WMS requests", Field.int r],
         [],
         [Field.str "Successful requests", Field.int (success_count rs : ℤ)],
         [Field.str "Average time", Field.rat (avg_seconds rs), Field.str "seconds"],
         [Field.str "Failed requests", Field.int (failure_count r rs)],
         [],
         [Field.str "Time_seconds", Field.str "Image_bytes", Field.str "URL"]] ∧
    (reportRows p r W H rs).drop 12
      = rs.map (fun item => [Field.rat item.seconds, Field.int (item.bytes : ℤ),
                             Field.str item.url]) := by
  refine ⟨?_, rfl, rfl⟩
  simp [reportRows]
  omega

/-- Every entry of the scale table is positive. -/
theorem tile_pixel_sizes_pos : ∀ q ∈ tile_pixel_sizes, 0 < q := by
  intro q hq
  fin_cases hq <;> norm_num

/-- C5: for every tile-mode RequestDescriptor with a level in
`[min_tile_level, max_tile_level]`, the extent has
`right - left = top - bottom = 256 * tile_pixel_sizes[level]` (a positive
width), and the snapped `left` and `bottom` are exact integer multiples of
that width and height. -/
theorem tile_descriptor_grid_aligned (box : BBox) (level : ℕ) (r1 r2 : ℚ)
    (_h1 : min_tile_level ≤ level) (h2 : level ≤ max_tile_level) :
    (tileDescriptor box level r1 r2).right - (tileDescriptor box level r1 r2).left
        = 256 * tile_pixel_sizes.getD level 0 ∧
    (tileDescriptor box level r1 r2).top - (tileDescriptor box level r1 r2).bottom
        = 256 * tile_pixel_sizes.getD level 0 ∧
    0 < 256 * tile_pixel_sizes.getD level 0 ∧
    (∃ k : ℤ, (tileDescriptor box level r1 r2).left
        = (k : ℚ) * (256 * tile_pixel_sizes.getD level 0)) ∧
    (∃ m : ℤ, (tileDescriptor box level r1 r2).bottom
        = (m : ℚ) * (256 * tile_pixel_sizes.getD level 0)) := by
  have hlen : tile_pixel_sizes.length = 31 := rfl
  have h2n : level ≤ 18 := h2
  have hlt : level < tile_pixel_sizes.length := by omega
  have hpos : 0 < tile_pixel_sizes.getD level 0 := by
    rw [List.getD_eq_getElem _ _ hlt]
    exact tile_pixel_sizes_pos _ (List.getElem_mem hlt)
  refine ⟨by simp [tileDescriptor], by simp [tileDescriptor], by linarith, ?_, ?_⟩
  · exact ⟨⌊uniform box.minX (box.maxX - 256 * tile_pixel_sizes.getD level 0) r1
        / (256 * tile_pixel_sizes.getD level 0)⌋, rfl⟩
  · exact ⟨⌊uniform box.minY (box.maxY - 256 * tile_pixel_sizes.getD level 0) r2
        / (256 * tile_pixel_sizes.getD level 0)⌋, rfl⟩

theorem tile_descriptor_grid_aligned_witness :
    min_tile_level ≤ 11 ∧ 11 ≤ max_tile_level ∧
    ((tileDescriptor sydneyBox 11 0 0).right - (tileDescriptor sydneyBox 11 0 0).left
        = 256 * tile_pixel_sizes.getD 11 0 ∧
     (tileDescriptor sydneyBox 11 0 0).top - (tileDescriptor sydneyBox 11 0 0).bottom
        = 256 * tile_pixel_sizes.getD 11 0 ∧
     0 < 256 * tile_pixel_sizes.getD 11 0 ∧
     (∃ k : ℤ, (tileDescriptor sydneyBox 11 0 0).left
        = (k : ℚ) * (256 * tile_pixel_sizes.getD 11 0)) ∧
     (∃ m : ℤ, (tileDescriptor sydneyBox 11 0 0).bottom
        = (m : ℚ) * (256 * tile_pixel_sizes.getD 11 0))) :=
  ⟨by decide, by decide,
   tile_descriptor_grid_aligned sydneyBox 11 0 0 (by decide) (by decide)⟩

/-- C9: for every bounding box and sampled width/height exceeding the box
extent (the inverted range, upper bound below lower bound), the
`random.uniform` sampling of `left` and `bottom` is total: for any underlying
draw in `[0, 1]` it returns a coordinate, lying between the inverted bounds,
so the degenerate geometry cannot crash the batch. -/
theorem degenerate_sampling_total (box : BBox) (w h r1 r2 : ℚ)
    (hw : box.maxX - box.minX < w) (hh : box.maxY - box.minY < h)
    (hr1a : 0 ≤ r1) (hr1b : r1 ≤ 1) (hr2a : 0 ≤ r2) (hr2b : r2 ≤ 1) :
    (box.maxX - w ≤ uniform box.minX (box.maxX - w) r1 ∧
      uniform box.minX (box.maxX - w) r1 ≤ box.minX) ∧
    (box.maxY - h ≤ uniform box.minY (box.maxY - h) r2 ∧
      uniform box.minY (box.maxY - h) r2 ≤ box.minY) := by
  unfold uniform
  refine ⟨⟨?_, ?_⟩, ?_, ?_⟩ <;> nlinarith

theorem degenerate_sampling_total_witness :
    sydneyBox.maxX - sydneyBox.minX < 40000 ∧
    sydneyBox.maxY - sydneyBox.minY < 26000 ∧
    (0 : ℚ) ≤ 1 / 2 ∧ (1 / 2 : ℚ) ≤ 1 ∧
    ((sydneyBox.maxX - 40000 ≤ uniform sydneyBox.minX (sydneyBox.maxX - 40000) (1 / 2) ∧
       uniform sydneyBox.minX (sydneyBox.maxX - 40000) (1 / 2) ≤ sydneyBox.minX) ∧
     (sydneyBox.maxY - 26000 ≤ uniform sydneyBox.minY (sydneyBox.maxY - 26000) (1 / 2) ∧
       uniform sydneyBox.minY (sydneyBox.maxY - 26000) (1 / 2) ≤ sydneyBox.minY)) :=
  ⟨by norm_num [sydneyBox], by norm_num [sydneyBox], by norm_num, by norm_num,
   degenerate_sampling_total sydneyBox 40000 26000 (1 / 2) (1 / 2)
     (by norm_num [sydneyBox]) (by norm_num [sydneyBox])
     (by norm_num) (by norm_num) (by norm_num) (by norm_num)⟩

/-- C10: in tile mode the extent can escape the chosen bounding box: at level
11 (within the configured range) and draw 0 for `left` (a value
`random.uniform` can return), the snapped `left` of the Sydney box lies
strictly below `box.minX`, and since no re-clamping follows, the requested
tile extends outside the configured area of interest. -/
theorem tile_extent_escapes_bbox :
    min_tile_level ≤ 11 ∧ 11 ≤ max_tile_level ∧
    (tileDescriptor sydneyBox 11 0 0).left < sydneyBox.minX := by
  refine ⟨by decide, by decide, ?_⟩
  have hv : tile_pixel_sizes.getD 11 0 = (76.437028274536100000 : ℚ) := rfl
  have hfloor : ⌊(16796997 : ℚ) / (256 * (76.437028274536100000 : ℚ))⌋ = 858 := by
    rw [Int.floor_eq_iff]
    norm_num
  simp only [tileDescriptor, sydneyBox, uniform, snapDown, hv]
  norm_num [hfloor]

/-- A Python dict lookup succeeds on every key of `{1, …, n}` when the table
keys are exactly `s, s+1, …, s+n-1`. -/
theorem lookup_isSome_of_keys_range (table : List (ℕ × BBox)) :
    ∀ s r : ℕ, table.map Prod.fst = List.range' s table.length →
      s ≤ r → r < s + table.length → (List.lookup r table).isSome = true := by
  induction table with
  | nil =>
      intro s r _ h1 h2
      simp at h2
      omega
  | cons hd tl ih =>
      intro s r hkeys h1 h2
      obtain ⟨k, b⟩ := hd
      rw [List.map_cons, List.length_cons, List.range'_succ] at hkeys
      simp only [List.cons.injEq] at hkeys
      obtain ⟨hk, htl⟩ := hkeys
      by_cases hrk : r = k
      · subst hrk
        simp [List.lookup]
      · have hne : (r == k) = false := by simpa using hrk
        simp only [List.lookup, hne]
        exact ih (s + 1) r (by simpa using htl) (by omega) (by
          simp only [List.length_cons] at h2; omega)

/-- C6 (counterexample): for the configured table `{2: sydney_box}` (a dict
with one entry whose key is not 1), the only possible draw
`random.randint(1, 1) = 1` retrieves `None` from `dict.get`: the sampling
draw does not select a bounding box of the table, so selection is not
uniform over box identities for every configured table. -/
theorem chooseBBox_misskeyed_table :
    ([((2 : ℕ), sydneyBox)] : List (ℕ × BBox)).length = 1 ∧
    chooseBBox [(2, sydneyBox)] 1 = none :=
  ⟨rfl, rfl⟩

/-- C6 (amended): for every configured table whose keys are exactly
`1, …, N` (as in the shipped configurations), every draw of
`random.randint(1, N)` retrieves a box of the table, and each table entry is
retrieved by exactly one of the `N` equiprobable draw values — so the
selected box identity is uniform over the table's entries. -/
theorem chooseBBox_uniform (table : List (ℕ × BBox))
    (hkeys : table.map Prod.fst = List.range' 1 table.length) :
    (∀ r : ℕ, 1 ≤ r → r ≤ table.length → (chooseBBox table r).isSome = true) ∧
    (∀ i : ℕ, i < table.length →
      ((Finset.Icc 1 table.length).filter
          (fun r => drawSelectsEntry table r i = true)).card = 1) := by
  constructor
  · intro r h1 h2
    exact lookup_isSome_of_keys_range table 1 r hkeys h1 (by omega)
  · intro i hi
    have hget : (table[i]?).map Prod.fst = some (1 + 1 * i) := by
      rw [← List.getElem?_map, hkeys, List.getElem?_range' 1 1 hi]
    have hfilter : (Finset.Icc 1 table.length).filter
        (fun r => drawSelectsEntry table r i = true) = {i + 1} := by
      ext r
      simp only [Finset.mem_filter, Finset.mem_Icc, Finset.mem_singleton,
        drawSelectsEntry, hget, beq_iff_eq, Option.some.injEq]
      omega
    rw [hfilter, Finset.card_singleton]

theorem chooseBBox_uniform_witness :
    (max_bounding_boxes.map Prod.fst = List.range' 1 max_bounding_boxes.length) ∧
    (chooseBBox max_bounding_boxes 3).isSome = true ∧
    ((Finset.Icc 1 max_bounding_boxes.length).filter
        (fun r => drawSelectsEntry max_bounding_boxes r 2 = true)).card = 1 :=
  ⟨by decide,
   (chooseBBox_uniform max_bounding_boxes (by decide)).1 3 (by decide) (by decide),
   (chooseBBox_uniform max_bounding_boxes (by decide)).2 2 (by decide)⟩

/-- C7 (counterexample): a configuration with a non-positive total request
count does not fail fast: with 8 workers, 0 requests and the shipped 7-entry
table, the run completes with no error and zero dispatched tasks (the loop
`for i in range(0, 0)` never executes), instead of failing with a clear
cause. -/
theorem mainRun_zero_requests_no_failure :
    mainRun 8 0 max_bounding_boxes.length = (0, none) :=
  rfl

/-- C7 (amended): a non-positive worker count raises `ValueError` at pool
creation before any task is dispatched; an empty bounding-box table together
with a positive request count raises `ValueError` on the first
`random.randint(1, 0)` draw before any task is dispatched; but a non-positive
total request count is not a fatal condition — the run proceeds normally and
dispatches zero tasks. -/
theorem mainRun_config_behavior (p r : ℤ) (t : ℕ) :
    (p < 1 → mainRun p r t = (0, some PyError.valueErrorPoolSize)) ∧
    (1 ≤ p → t = 0 → 1 ≤ r →
      mainRun p r t = (0, some PyError.valueErrorEmptyRandomRange)) ∧
    (1 ≤ p → r ≤ 0 → mainRun p r t = (0, none)) := by
  refine ⟨fun hp => ?_, fun hp ht hr => ?_, fun hp hr => ?_⟩
  · rw [mainRun, if_pos hp]
  · subst ht
    rw [mainRun, if_neg (by omega)]
    cases hpr : pyRange 0 r with
    | nil =>
        exfalso
        have hlen : (pyRange 0 r).length = (r - 0).toNat := by
          unfold pyRange
          rw [List.length_map, List.length_range]
        rw [hpr] at hlen
        simp at hlen
        omega
    | cons a l => simp [dispatchLoop]
  · rw [mainRun, if_neg (by omega)]
    have h0 : (r - 0).toNat = 0 := by omega
    have hnil : pyRange 0 r = [] := by
      unfold pyRange
      rw [h0, List.range_zero, List.map_nil]
    rw [hnil]
    rfl

theorem mainRun_config_behavior_witness :
    ((0 : ℤ) < 1 ∧ mainRun 0 5 7 = (0, some PyError.valueErrorPoolSize)) ∧
    ((1 : ℤ) ≤ 1 ∧ (0 : ℕ) = 0 ∧ (1 : ℤ) ≤ 5 ∧
      mainRun 1 5 0 = (0, some PyError.valueErrorEmptyRandomRange)) ∧
    ((1 : ℤ) ≤ 1 ∧ (-3 : ℤ) ≤ 0 ∧ mainRun 1 (-3) 7 = (0, none)) :=
  ⟨⟨by decide, (mainRun_config_behavior 0 5 7).1 (by decide)⟩,
   ⟨by decide, rfl, by decide,
    (mainRun_config_behavior 1 5 0).2.1 (by decide) rfl (by decide)⟩,
   ⟨by decide, by decide,
    (mainRun_config_behavior 1 (-3) 7).2.2 (by decide) (by decide)⟩⟩

end WmsHarness
